import Mathlib

/-!
Shallow embedding of `newspaper/article.py` (the `Article` lifecycle core):
the download-state machine, the `download`/`set_html`/`set_text`/
`set_article_html` mutators, the `parse` pipeline orchestration, the
parse-candidate (link-hash) computation, and the source-URL
resolution.  Collaborators that live outside the embedded file
(`newspaper.network`, `newspaper.urls`, the parser / cleaner / extractor /
formatter objects, and the hash helpers in `newspaper.utils`) are modelled as
explicit parameters or, where a claim depends on their behaviour, as
definitions modelled from the specification.
-/

namespace Newspaper

/-- The three named constants of `ArticleDownloadState`
(`NOT_STARTED = 0`, `FAILED_RESPONSE = 1`, `SUCCESS = 2`). -/
inductive ArticleDownloadState where
  | NOT_STARTED
  | FAILED_RESPONSE
  | SUCCESS
deriving DecidableEq, Repr

/-- The configuration object as far as the embedded operations read it:
`set_text` reads `config.MAX_TEXT`.  (The real `Configuration` class is not
part of the embedded file; only this field is consulted by the modelled
code paths.) -/
structure Configuration where
  MAX_TEXT : Nat
deriving DecidableEq, Repr

/-- Python truthiness of a string: non-empty strings are truthy. -/
def pyTruthy (s : String) : Bool := !(s == "")

/-- A downloaded body may be text (`str`) or raw bytes; the Python
`isinstance(html, bytes)` test in `set_html` distinguishes the two.
Bytes are modelled as a list of byte values. -/
inductive HtmlBody where
  | str (s : String)
  | bytes (b : List Nat)
deriving DecidableEq, Repr

/-- Python truthiness of a body (`if html:`): empty `str`/`bytes` are falsy. -/
def HtmlBody.truthy : HtmlBody → Bool
  | .str s => pyTruthy s
  | .bytes b => !(b == [])

/-- Embeds the Python `text[:n]` slice on a `str`: the first `n` code points. -/
def pySlice (s : String) (n : Nat) : String := String.mk (s.data.take n)

/-- The `ArticleException` raised by the embedded code.  The Python class
carries no arguments; the methods that raise it first print a diagnostic
line.  The `diagnostic` field records that printed line, packaging the
observable failure (print + raise) as one error value. -/
inductive ArticleException where
  | mk (diagnostic : String)
deriving DecidableEq, Repr

/-- The `Article` state: exactly the fields of `Article.__init__` that any
embedded operation reads or writes.  `link_hash` is not initialised by
`__init__` (it is first assigned inside `parse`), hence `Option`.
The fields `top_node`, `clean_top_node`, `doc` and `clean_doc` are set to
`None` by `__init__` and never touched again by any live code path
(`parse` uses local variables `doc` / `top_node`), so they are omitted. -/
structure Article where
  config : Configuration
  source_url : String
  url : String
  text : String
  html : String
  article_html : String
  is_parsed : Bool
  download_state : ArticleDownloadState
  download_exception_msg : Option String
  link_hash : Option String
deriving DecidableEq, Repr

/-- The injected collaborators consulted by the embedded operations, one
field per call site:
`fromstring` is `config.get_parser().fromstring` (returns `None` on
unparseable input), `get_unicode_html` is
`config.get_parser().get_unicode_html`, `clean` is
`DocumentCleaner(config).clean`, `calculate_best_node` and `post_cleanup`
are the `ContentExtractor` methods, and `get_formatted` is
`OutputFormatter(config).get_formatted`, returning the `(text, html)`
pair. -/
structure Ports (Doc Node : Type) where
  fromstring : String → Option Doc
  get_unicode_html : List Nat → String
  clean : Doc → Doc
  calculate_best_node : Doc → Option Node
  post_cleanup : Node → Node
  get_formatted : Node → String × String

/-- The parsing-candidate wrapper returned by the helpers in
`newspaper.utils`: a final url together with a link hash. -/
structure ParsingCandidate where
  url : String
  link_hash : String
deriving DecidableEq, Repr

/-- Modelled from the spec: the digest used by the parsing-candidate
helpers of `newspaper.utils` (the module is not under `src/`; the source
comment says the hash is MD5).  The spec requires only a deterministic,
collision-resistant-enough digest whose exact algorithm is a
caller-invisible implementation detail, so it is modelled as an injective
encoding of its input. -/
def md5_digest (s : String) : String := ("md5-") ++ s

/-- Modelled from the spec: `RawHelper.get_parsing_candidate(url, raw_html)`
from `newspaper.utils` (not under `src/`) computes the hash from the pair
`(url, html)` — the content-bound path.  The pair is fed to the digest via
a length-prefixed encoding so that distinct pairs give distinct digest
inputs. -/
def RawHelper.get_parsing_candidate (url raw_html : String) : ParsingCandidate :=
  { url := url
    link_hash := md5_digest (toString url.length ++ (":") ++ url ++ ("|") ++ raw_html) }

/-- Modelled from the spec: `URLHelper.get_parsing_candidate(url)` from
`newspaper.utils` (not under `src/`) computes the hash from the url
alone — the URL-only path. -/
def URLHelper.get_parsing_candidate (url : String) : ParsingCandidate :=
  { url := url, link_hash := md5_digest (("url:") ++ url) }

/-- Embeds `Article.set_text`: truncate to `config.MAX_TEXT` characters and assign
only if the truncated result is truthy. -/
def set_text (a : Article) (text : String) : Article :=
  let text := pySlice text a.config.MAX_TEXT
  if pyTruthy text then { a with text := text } else a

/-- Embeds `Article.set_html`: a falsy body is a no-op; otherwise bytes are decoded
via the parser method `get_unicode_html`, the result is stored as `html`, and
`download_state` becomes `SUCCESS`. -/
def set_html {Doc Node : Type} (ports : Ports Doc Node) (a : Article)
    (html : HtmlBody) : Article :=
  if html.truthy then
    let htmlStr :=
      match html with
      | .bytes b => ports.get_unicode_html b
      | .str s => s
    { a with html := htmlStr, download_state := .SUCCESS }
  else a

/-- Embeds `Article.set_article_html`: assign only if truthy. -/
def set_article_html (a : Article) (article_html : String) : Article :=
  if pyTruthy article_html then { a with article_html := article_html } else a

/-- Embeds `Article.download(input_html=None, ...)`.  The network call
`network.get_html_2XX_only(self.url, self.config)` is modelled by the
`fetch_result` parameter: `.ok body` is a returned body, `.error e` is a
raised `requests.exceptions.RequestException` whose `str` is `e`.  The
`except` branch records the failure in `download_state` /
`download_exception_msg` and returns normally (the return type
is `Article`, not an `Except`: network failures never propagate).  The
unused `title` / `recursion_counter` parameters are omitted. -/
def download {Doc Node : Type} (ports : Ports Doc Node)
    (fetch_result : Except String HtmlBody) (a : Article)
    (input_html : Option HtmlBody) : Article :=
  match input_html with
  | none =>
    match fetch_result with
    | .error e =>
      { a with download_state := .FAILED_RESPONSE, download_exception_msg := some e }
    | .ok html => set_html ports a html
  | some html => set_html ports a html

/-- Embeds `Article.get_parse_candidate`: the content-bound helper when `html` is
truthy, the URL-only helper otherwise. -/
def get_parse_candidate (a : Article) : ParsingCandidate :=
  if pyTruthy a.html then RawHelper.get_parsing_candidate a.url a.html
  else URLHelper.get_parsing_candidate a.url

/-- Embeds `Article.get_parse_candidate` in state-passing form: the method body
contains no assignment to `self`, so the state component is returned
unchanged. -/
def get_parse_candidate_st (a : Article) : ParsingCandidate × Article :=
  (get_parse_candidate a, a)

/-- The diagnostic printed by `throw_if_not_downloaded_verbose` in the
`NOT_STARTED` case. -/
def NOT_DOWNLOADED_MSG : String := "You must `download()` an article first!"

/-- Embeds the Python percent-s rendering of the optional failure message
(`None` prints as the four-character string). -/
def pyStrOpt : Option String → String
  | none => "None"
  | some s => s

/-- The diagnostic printed by `throw_if_not_downloaded_verbose` in the
`FAILED_RESPONSE` case: the format string of the source instantiated with
the captured message and the url. -/
def DOWNLOAD_FAILED_MSG (msg url : String) : String :=
  ("Article `download()` failed with ") ++ msg ++ (" on URL ") ++ url

/-- Embeds `Article.throw_if_not_downloaded_verbose`: print a readable status and
raise `ArticleException` unless the download state is `SUCCESS`. -/
def throw_if_not_downloaded_verbose (a : Article) : Except ArticleException Unit :=
  match a.download_state with
  | .NOT_STARTED => .error (.mk NOT_DOWNLOADED_MSG)
  | .FAILED_RESPONSE =>
    .error (.mk (DOWNLOAD_FAILED_MSG (pyStrOpt a.download_exception_msg) a.url))
  | .SUCCESS => .ok ()

/-- Embeds `Article.parse`.  Returns `.error` when the download guard raises;
otherwise `(none, a)` when `fromstring` yields no document (the Python
`return` with no value, state untouched), and `(some text, a)` when a
document is built: the candidate hash is recorded, the document is
cleaned, the best node (if any) is post-cleaned and formatted — the
formatted pair is bound to locals whose stores (`set_article_html`,
`set_text`) are commented out in the source — `is_parsed` is set and the
text (possibly empty) is returned. -/
def parse {Doc Node : Type} (ports : Ports Doc Node) (a : Article) :
    Except ArticleException (Option String × Article) :=
  match throw_if_not_downloaded_verbose a with
  | .error e => .error e
  | .ok _ =>
    match ports.fromstring a.html with
    | none => .ok (none, a)
    | some doc =>
      let parse_candidate := get_parse_candidate a
      let a1 := { a with link_hash := some parse_candidate.link_hash }
      let doc := ports.clean doc
      match ports.calculate_best_node doc with
      | none => .ok (some (""), { a1 with is_parsed := true })
      | some top_node =>
        let top_node := ports.post_cleanup top_node
        let fmt := ports.get_formatted top_node
        .ok (some fmt.1, { a1 with is_parsed := true })

/-- The `BadUrlFormat` message of the constructor. -/
def BAD_URL_MSG : String := "input url bad format"

/-- Embeds `Article.__init__`, restricted to the fields the embedded operations
use.  The helpers `urls.get_scheme`, `urls.get_domain` and
`urls.prepare_url` live in `newspaper.urls` (not under `src/`) and are
taken as parameters, so every property proved about `init` holds for all
of them.  `source_url` is `Option String` to capture both the
empty-string sentinel (the Python default) and an explicit `None`
argument, which the check `source_url is None` of the source addresses.
Config-kwarg merging and the `ContentExtractor` construction touch no
embedded field and are omitted. -/
def Article.init (cfg : Configuration)
    (get_scheme : String → Option String) (get_domain : String → String)
    (prepare_url : String → String → String)
    (url : String) (source_url : Option String) : Except ArticleException Article :=
  let resolved : Option String :=
    if source_url = some ("") then
      some ((get_scheme url).getD ("http") ++ ("://") ++ get_domain url)
    else source_url
  match resolved with
  | none => .error (.mk BAD_URL_MSG)
  | some su =>
    if su = "" then .error (.mk BAD_URL_MSG)
    else
      .ok { config := cfg
            source_url := su
            url := prepare_url url su
            text := ""
            html := ""
            article_html := ""
            is_parsed := false
            download_state := .NOT_STARTED
            download_exception_msg := none
            link_hash := none }

/-! ### Helper lemmas -/

theorem pyTruthy_false_iff {s : String} : pyTruthy s = false ↔ s = "" := by
  simp [pyTruthy]

theorem pyTruthy_true_iff {s : String} : pyTruthy s = true ↔ s ≠ "" := by
  simp [pyTruthy]

theorem string_append_left_cancel (p s t : String) (h : p ++ s = p ++ t) : s = t := by
  apply String.ext
  have h2 := congrArg String.data h
  simp only [String.data_append] at h2
  exact List.append_cancel_left h2

theorem md5_digest_inj {s t : String} (h : md5_digest s = md5_digest t) : s = t :=
  string_append_left_cancel _ _ _ h

theorem pySlice_length (s : String) (n : Nat) :
    (pySlice s n).length = min n s.length := by
  simp only [pySlice, String.length_mk, List.length_take]
  rfl

theorem scheme_sep_ne_empty (x y : String) : x ++ ("://") ++ y ≠ "" := by
  intro h
  have h2 := congrArg String.length h
  rw [String.length_append, String.length_append] at h2
  have h3 : (("://") : String).length = 3 := rfl
  have h0 : (("") : String).length = 0 := rfl
  rw [h3, h0] at h2
  omega

/-! ### Concrete fixtures used to evaluate the operations -/

/-- A simple concrete collaborator bundle over unit document and node
types: the builder always succeeds, a node is always selected, and the
formatter returns the fixed non-empty pair (sometext, somehtml). -/
def wPorts : Ports Unit Unit :=
  { fromstring := fun _ => some ()
    get_unicode_html := fun _ => ("decoded")
    clean := fun d => d
    calculate_best_node := fun _ => some ()
    post_cleanup := fun n => n
    get_formatted := fun _ => (("sometext"), ("somehtml")) }

/-- A collaborator bundle whose document builder always fails. -/
def wPortsNoDoc : Ports Unit Unit :=
  { wPorts with fromstring := fun _ => none }

/-- A freshly constructed article: the field values `__init__` assigns. -/
def wFresh : Article :=
  { config := { MAX_TEXT := 100 }
    source_url := ("http://example.com")
    url := ("http://example.com/a")
    text := ""
    html := ""
    article_html := ""
    is_parsed := false
    download_state := .NOT_STARTED
    download_exception_msg := none
    link_hash := none }

/-- An article whose download succeeded. -/
def wSuccess : Article :=
  { wFresh with html := ("<html><body>x</body></html>"), download_state := .SUCCESS }

/-- An article whose download failed with a recorded message. -/
def wFailed : Article :=
  { wFresh with download_state := .FAILED_RESPONSE
                download_exception_msg := some ("boom") }

/-! ### Claim C3 -/

/-- C3: when no HTML is supplied and the fetch raises a network-level
error, `download` returns normally (its result is an `Article`, not an
exception), records `FAILED_RESPONSE` and the failure message, and leaves
every other field — in particular `html` and `is_parsed` — unchanged. -/
theorem C3_download_network_failure {Doc Node : Type} (ports : Ports Doc Node)
    (a : Article) (e : String) :
    download ports (.error e) a none =
      { a with download_state := .FAILED_RESPONSE, download_exception_msg := some e }
    ∧ (download ports (.error e) a none).download_state = .FAILED_RESPONSE
    ∧ (download ports (.error e) a none).download_exception_msg = some e
    ∧ (download ports (.error e) a none).html = a.html
    ∧ (download ports (.error e) a none).is_parsed = a.is_parsed
    ∧ (download ports (.error e) a none).text = a.text
    ∧ (download ports (.error e) a none).article_html = a.article_html
    ∧ (download ports (.error e) a none).link_hash = a.link_hash
    ∧ (download ports (.error e) a none).url = a.url
    ∧ (download ports (.error e) a none).source_url = a.source_url
    ∧ (download ports (.error e) a none).config = a.config :=
  ⟨rfl, rfl, rfl, rfl, rfl, rfl, rfl, rfl, rfl, rfl, rfl⟩

/-! ### Claim C6 -/

/-- C6: `set_html` with a falsy body changes nothing; with a non-empty
text body it stores the body as `html` and sets `SUCCESS`; with a
non-empty bytes body it first decodes via the charset routine of the parser port;
in all cases without any well-formedness check on the markup. -/
theorem C6_set_html_spec {Doc Node : Type} (ports : Ports Doc Node) (a : Article) :
    (∀ body : HtmlBody, body.truthy = false → set_html ports a body = a)
    ∧ (∀ s : String, s ≠ "" →
        set_html ports a (.str s) = { a with html := s, download_state := .SUCCESS })
    ∧ (∀ b : List Nat, b ≠ [] →
        set_html ports a (.bytes b) =
          { a with html := ports.get_unicode_html b, download_state := .SUCCESS }) := by
  refine ⟨?_, ?_, ?_⟩
  · intro body h
    simp [set_html, h]
  · intro s h
    simp [set_html, HtmlBody.truthy, pyTruthy, h]
  · intro b h
    simp [set_html, HtmlBody.truthy, h]

/-- Witness for C6 at concrete inputs: the empty string is a no-op, a
non-empty string is stored with `SUCCESS`, and non-empty bytes are
decoded then stored with `SUCCESS`. -/
theorem C6_set_html_spec_witness :
    set_html wPorts wFresh (.str ("")) = wFresh
    ∧ set_html wPorts wFresh (.str ("<p>x</p>")) =
        { wFresh with html := ("<p>x</p>"), download_state := .SUCCESS }
    ∧ set_html wPorts wFresh (.bytes [104]) =
        { wFresh with html := wPorts.get_unicode_html [104],
                      download_state := .SUCCESS } :=
  ⟨(C6_set_html_spec wPorts wFresh).1 (.str ("")) (by decide),
   (C6_set_html_spec wPorts wFresh).2.1 ("<p>x</p>") (by decide),
   (C6_set_html_spec wPorts wFresh).2.2 [104] (by decide)⟩

/-! ### Claim C5 -/

/-- C5: `get_parse_candidate` uses the content-bound helper on the pair
(url, html) when `html` is non-empty and the URL-only helper when `html`
is empty; the hash is deterministic in (url, html); and two articles with
the same url but different non-empty html bodies get different hashes. -/
theorem C5_parse_candidate (a b : Article) :
    (a.html ≠ "" → get_parse_candidate a = RawHelper.get_parsing_candidate a.url a.html)
    ∧ (a.html = "" → get_parse_candidate a = URLHelper.get_parsing_candidate a.url)
    ∧ (a.url = b.url → a.html = b.html → get_parse_candidate a = get_parse_candidate b)
    ∧ (a.url = b.url → a.html ≠ "" → b.html ≠ "" → a.html ≠ b.html →
        (get_parse_candidate a).link_hash ≠ (get_parse_candidate b).link_hash) := by
  refine ⟨?_, ?_, ?_, ?_⟩
  · intro h
    simp [get_parse_candidate, pyTruthy, h]
  · intro h
    simp [get_parse_candidate, h, pyTruthy]
  · intro h1 h2
    simp [get_parse_candidate, h1, h2]
  · intro hu ha hb hne
    have h1 : get_parse_candidate a = RawHelper.get_parsing_candidate a.url a.html := by
      simp [get_parse_candidate, pyTruthy, ha]
    have h2 : get_parse_candidate b = RawHelper.get_parsing_candidate b.url b.html := by
      simp [get_parse_candidate, pyTruthy, hb]
    rw [h1, h2, hu]
    intro hcontra
    apply hne
    simp only [RawHelper.get_parsing_candidate] at hcontra
    have h3 := md5_digest_inj hcontra
    exact string_append_left_cancel _ _ _ h3

/-- Witness for C5: two concrete articles sharing a url with different
non-empty bodies have different hashes, and the fresh (empty-html)
article takes the URL-only path. -/
theorem C5_parse_candidate_witness :
    (get_parse_candidate wSuccess).link_hash ≠
      (get_parse_candidate { wSuccess with html := ("<p>y</p>") }).link_hash
    ∧ get_parse_candidate wFresh = URLHelper.get_parsing_candidate wFresh.url :=
  ⟨(C5_parse_candidate wSuccess { wSuccess with html := ("<p>y</p>") }).2.2.2
      rfl (by decide) (by decide) (by decide),
   (C5_parse_candidate wFresh wFresh).2.1 rfl⟩

/-! ### Shape of `parse` past the download guard -/

/-- When the download guard passes and the builder yields no document,
`parse` returns the absent result with the state untouched. -/
theorem parse_no_document {Doc Node : Type} (ports : Ports Doc Node) (a : Article)
    (hs : a.download_state = .SUCCESS) (hf : ports.fromstring a.html = none) :
    parse ports a = .ok (none, a) := by
  simp only [parse, throw_if_not_downloaded_verbose, hs, hf]

/-- When the guard passes, a document is built but no best node is
selected, `parse` records the hash, sets `is_parsed`, and returns the
empty text; `text` and `article_html` are not assigned. -/
theorem parse_document_no_node {Doc Node : Type} (ports : Ports Doc Node)
    (a : Article) (doc : Doc)
    (hs : a.download_state = .SUCCESS) (hf : ports.fromstring a.html = some doc)
    (hb : ports.calculate_best_node (ports.clean doc) = none) :
    parse ports a =
      .ok (some (""),
           { a with link_hash := some (get_parse_candidate a).link_hash,
                    is_parsed := true }) := by
  simp only [parse, throw_if_not_downloaded_verbose, hs, hf, hb]

/-- When the guard passes, a document is built and a best node is
selected, `parse` records the hash, sets `is_parsed`, and returns the
text component of the formatted post-cleaned node; `text` and
`article_html` are not assigned. -/
theorem parse_document_with_node {Doc Node : Type} (ports : Ports Doc Node)
    (a : Article) (doc : Doc) (top_node : Node)
    (hs : a.download_state = .SUCCESS) (hf : ports.fromstring a.html = some doc)
    (hb : ports.calculate_best_node (ports.clean doc) = some top_node) :
    parse ports a =
      .ok (some (ports.get_formatted (ports.post_cleanup top_node)).1,
           { a with link_hash := some (get_parse_candidate a).link_hash,
                    is_parsed := true }) := by
  simp only [parse, throw_if_not_downloaded_verbose, hs, hf, hb]

theorem set_html_is_parsed {Doc Node : Type} (ports : Ports Doc Node) (a : Article)
    (body : HtmlBody) : (set_html ports a body).is_parsed = a.is_parsed := by
  unfold set_html
  split
  · rfl
  · rfl

theorem download_is_parsed {Doc Node : Type} (ports : Ports Doc Node)
    (fr : Except String HtmlBody) (a : Article) (ih : Option HtmlBody) :
    (download ports fr a ih).is_parsed = a.is_parsed := by
  unfold download
  cases ih with
  | none =>
    cases fr with
    | error e => rfl
    | ok html => exact set_html_is_parsed ports a html
  | some html => exact set_html_is_parsed ports a html

theorem set_text_is_parsed (a : Article) (t : String) :
    (set_text a t).is_parsed = a.is_parsed := by
  simp only [set_text]
  split
  · rfl
  · rfl

theorem set_article_html_is_parsed (a : Article) (h : String) :
    (set_article_html a h).is_parsed = a.is_parsed := by
  unfold set_article_html
  split
  · rfl
  · rfl

theorem parse_is_parsed_mono {Doc Node : Type} (ports : Ports Doc Node) (a : Article)
    (res : Option String) (b : Article) (hp : parse ports a = .ok (res, b))
    (ha : a.is_parsed = true) : b.is_parsed = true := by
  cases hst : a.download_state with
  | NOT_STARTED => simp [parse, throw_if_not_downloaded_verbose, hst] at hp
  | FAILED_RESPONSE => simp [parse, throw_if_not_downloaded_verbose, hst] at hp
  | SUCCESS =>
    cases hf : ports.fromstring a.html with
    | none =>
      rw [parse_no_document ports a hst hf] at hp
      simp only [Except.ok.injEq, Prod.mk.injEq] at hp
      rw [← hp.2]
      exact ha
    | some doc =>
      cases hb : ports.calculate_best_node (ports.clean doc) with
      | none =>
        rw [parse_document_no_node ports a doc hst hf hb] at hp
        simp only [Except.ok.injEq, Prod.mk.injEq] at hp
        rw [← hp.2]
      | some top_node =>
        rw [parse_document_with_node ports a doc top_node hst hf hb] at hp
        simp only [Except.ok.injEq, Prod.mk.injEq] at hp
        rw [← hp.2]

theorem set_html_link_hash {Doc Node : Type} (ports : Ports Doc Node) (a : Article)
    (body : HtmlBody) : (set_html ports a body).link_hash = a.link_hash := by
  unfold set_html
  split
  · rfl
  · rfl

/-! ### Claim C2 -/

/-- C2: `parse` raises the not-downloaded `ArticleException` (with its
printed diagnostic) when the state is `NOT_STARTED`, raises the
download-failed `ArticleException` whose diagnostic carries the captured
failure message and the url when the state is `FAILED_RESPONSE`, and
passes the guard (returns an `.ok` result) exactly when the state is
`SUCCESS`. -/
theorem C2_parse_download_guard {Doc Node : Type} (ports : Ports Doc Node)
    (a : Article) :
    (a.download_state = .NOT_STARTED →
        parse ports a = .error (.mk NOT_DOWNLOADED_MSG))
    ∧ (a.download_state = .FAILED_RESPONSE →
        parse ports a =
          .error (.mk (DOWNLOAD_FAILED_MSG (pyStrOpt a.download_exception_msg) a.url)))
    ∧ (a.download_state = .SUCCESS → ∃ r, parse ports a = .ok r)
    ∧ ((∃ r, parse ports a = .ok r) → a.download_state = .SUCCESS) := by
  refine ⟨?_, ?_, ?_, ?_⟩
  · intro h
    simp [parse, throw_if_not_downloaded_verbose, h]
  · intro h
    simp [parse, throw_if_not_downloaded_verbose, h]
  · intro h
    cases hf : ports.fromstring a.html with
    | none => exact ⟨(none, a), parse_no_document ports a h hf⟩
    | some doc =>
      cases hb : ports.calculate_best_node (ports.clean doc) with
      | none => exact ⟨_, parse_document_no_node ports a doc h hf hb⟩
      | some top_node => exact ⟨_, parse_document_with_node ports a doc top_node h hf hb⟩
  · rintro ⟨r, hr⟩
    cases hst : a.download_state with
    | NOT_STARTED => simp [parse, throw_if_not_downloaded_verbose, hst] at hr
    | FAILED_RESPONSE => simp [parse, throw_if_not_downloaded_verbose, hst] at hr
    | SUCCESS => rfl

/-- Witness for C2: the fresh article raises with the not-downloaded
diagnostic, the failed article raises with the diagnostic carrying the
captured message and url, and the successfully downloaded article passes
the guard. -/
theorem C2_parse_download_guard_witness :
    parse wPorts wFresh = .error (.mk NOT_DOWNLOADED_MSG)
    ∧ parse wPorts wFailed =
        .error (.mk (DOWNLOAD_FAILED_MSG (pyStrOpt wFailed.download_exception_msg)
          wFailed.url))
    ∧ (∃ r, parse wPorts wSuccess = .ok r) :=
  ⟨(C2_parse_download_guard wPorts wFresh).1 rfl,
   (C2_parse_download_guard wPorts wFailed).2.1 rfl,
   (C2_parse_download_guard wPorts wSuccess).2.2.1 rfl⟩

/-! ### Claim C4 -/

/-- C4: when the builder yields no document, `parse` returns the absent
result with the article completely unchanged (`is_parsed` still false if
it was, no hash recorded), consults no later pipeline stage, and a repeat
call gives the same outcome; moreover `is_parsed`, once true, is
preserved by every operation. -/
theorem C4_unparseable_html {Doc Node : Type} (ports : Ports Doc Node) (a : Article)
    (hs : a.download_state = .SUCCESS) (hf : ports.fromstring a.html = none) :
    parse ports a = .ok (none, a)
    ∧ (∀ b, parse ports a = .ok (none, b) → parse ports b = .ok (none, b))
    ∧ (∀ ports2 : Ports Doc Node, ports2.fromstring = ports.fromstring →
        parse ports2 a = parse ports a)
    ∧ (∀ b : Article, b.is_parsed = true →
        (∀ fr ih, (download ports fr b ih).is_parsed = true)
        ∧ (∀ body, (set_html ports b body).is_parsed = true)
        ∧ (∀ t, (set_text b t).is_parsed = true)
        ∧ (∀ h, (set_article_html b h).is_parsed = true)
        ∧ (∀ res c, parse ports b = .ok (res, c) → c.is_parsed = true)) := by
  have h1 : parse ports a = .ok (none, a) := parse_no_document ports a hs hf
  refine ⟨h1, ?_, ?_, ?_⟩
  · intro b hb
    rw [h1] at hb
    simp only [Except.ok.injEq, Prod.mk.injEq] at hb
    rw [← hb.2]
    exact h1
  · intro ports2 h2
    have hf2 : ports2.fromstring a.html = none := by rw [h2, hf]
    rw [h1, parse_no_document ports2 a hs hf2]
  · intro b hbp
    refine ⟨?_, ?_, ?_, ?_, ?_⟩
    · intro fr ih
      rw [download_is_parsed]
      exact hbp
    · intro body
      rw [set_html_is_parsed]
      exact hbp
    · intro t
      rw [set_text_is_parsed]
      exact hbp
    · intro h
      rw [set_article_html_is_parsed]
      exact hbp
    · intro res c hc
      exact parse_is_parsed_mono ports b res c hc hbp

/-- Witness for C4: with a builder that always fails, `parse` on the
downloaded article leaves it untouched, and `is_parsed` survives a
`set_text` once true. -/
theorem C4_unparseable_html_witness :
    parse wPortsNoDoc wSuccess = .ok (none, wSuccess)
    ∧ (set_text { wSuccess with is_parsed := true } ("t")).is_parsed = true :=
  ⟨(C4_unparseable_html wPortsNoDoc wSuccess rfl rfl).1,
   ((C4_unparseable_html wPortsNoDoc wSuccess rfl rfl).2.2.2
      { wSuccess with is_parsed := true } rfl).2.2.1 ("t")⟩

/-! ### Claim C9 -/

/-- C9: `get_parse_candidate` is a pure query: the state-passing reading of
the method returns the article unchanged; on an article with empty `html`
(in particular one that has not been downloaded) it takes the URL-only
path; and `link_hash` is written by no operation except `parse`, which
records it once a document is built. -/
theorem C9_get_parse_candidate_pure {Doc Node : Type} (ports : Ports Doc Node)
    (a : Article) :
    (get_parse_candidate_st a).2 = a
    ∧ (get_parse_candidate_st a).1 = get_parse_candidate a
    ∧ (a.html = "" → get_parse_candidate a = URLHelper.get_parsing_candidate a.url)
    ∧ (∀ fr ih, (download ports fr a ih).link_hash = a.link_hash)
    ∧ (∀ body, (set_html ports a body).link_hash = a.link_hash)
    ∧ (∀ t, (set_text a t).link_hash = a.link_hash)
    ∧ (∀ h, (set_article_html a h).link_hash = a.link_hash)
    ∧ (∀ (doc : Doc) (res : Option String) (b : Article),
        ports.fromstring a.html = some doc → parse ports a = .ok (res, b) →
          b.link_hash = some (get_parse_candidate a).link_hash) := by
  refine ⟨rfl, rfl, ?_, ?_, ?_, ?_, ?_, ?_⟩
  · intro h
    simp [get_parse_candidate, h, pyTruthy]
  · intro fr ih
    unfold download
    cases ih with
    | none =>
      cases fr with
      | error e => rfl
      | ok html => exact set_html_link_hash ports a html
    | some html => exact set_html_link_hash ports a html
  · intro body
    exact set_html_link_hash ports a body
  · intro t
    simp only [set_text]
    split
    · rfl
    · rfl
  · intro h
    unfold set_article_html
    split
    · rfl
    · rfl
  · intro doc res b hf hp
    cases hst : a.download_state with
    | NOT_STARTED => simp [parse, throw_if_not_downloaded_verbose, hst] at hp
    | FAILED_RESPONSE => simp [parse, throw_if_not_downloaded_verbose, hst] at hp
    | SUCCESS =>
      cases hb : ports.calculate_best_node (ports.clean doc) with
      | none =>
        rw [parse_document_no_node ports a doc hst hf hb] at hp
        simp only [Except.ok.injEq, Prod.mk.injEq] at hp
        rw [← hp.2]
      | some top_node =>
        rw [parse_document_with_node ports a doc top_node hst hf hb] at hp
        simp only [Except.ok.injEq, Prod.mk.injEq] at hp
        rw [← hp.2]

/-- Witness for C9: on the fresh (never-downloaded) article the query
takes the URL-only path, and `parse` on the downloaded article records
the hash. -/
theorem C9_get_parse_candidate_pure_witness :
    get_parse_candidate wFresh = URLHelper.get_parsing_candidate wFresh.url
    ∧ (get_parse_candidate_st wFresh).2 = wFresh
    ∧ ((parse wPorts wSuccess).toOption.map (fun p => p.2.link_hash) =
        some (some (get_parse_candidate wSuccess).link_hash)) := by
  refine ⟨(C9_get_parse_candidate_pure wPorts wFresh).2.2.1 rfl,
          (C9_get_parse_candidate_pure wPorts wFresh).1, ?_⟩
  have hp : parse wPorts wSuccess =
      .ok (some (wPorts.get_formatted (wPorts.post_cleanup ())).1,
           { wSuccess with link_hash := some (get_parse_candidate wSuccess).link_hash,
                           is_parsed := true }) :=
    parse_document_with_node wPorts wSuccess () () rfl rfl rfl
  have h2 := (C9_get_parse_candidate_pure wPorts wSuccess).2.2.2.2.2.2.2
    () (some (wPorts.get_formatted (wPorts.post_cleanup ())).1)
    { wSuccess with link_hash := some (get_parse_candidate wSuccess).link_hash,
                    is_parsed := true } rfl hp
  rw [hp]
  exact congrArg some h2

/-! ### Claim C10 -/

/-- C10: `download` with an explicitly supplied empty-string body performs
no fetch (the result does not depend on the fetch outcome) and leaves the
article — in particular its download state — unchanged, so a subsequent
`parse` on a fresh article still raises the not-downloaded error. -/
theorem C10_download_empty_string {Doc Node : Type} (ports : Ports Doc Node)
    (f1 f2 : Except String HtmlBody) (a : Article) :
    download ports f1 a (some (.str (""))) = a
    ∧ download ports f1 a (some (.str (""))) = download ports f2 a (some (.str ("")))
    ∧ (a.download_state = .NOT_STARTED →
        parse ports (download ports f1 a (some (.str ("")))) =
          .error (.mk NOT_DOWNLOADED_MSG)) := by
  have h1 : download ports f1 a (some (.str (""))) = a := by
    simp [download, set_html, HtmlBody.truthy, pyTruthy]
  have h2 : download ports f2 a (some (.str (""))) = a := by
    simp [download, set_html, HtmlBody.truthy, pyTruthy]
  refine ⟨h1, by rw [h1, h2], ?_⟩
  intro h
  rw [h1]
  simp [parse, throw_if_not_downloaded_verbose, h]

/-- Witness for C10: on the fresh article, downloading an empty supplied
body leaves it untouched for any fetch outcome and the following `parse`
raises the not-downloaded diagnostic. -/
theorem C10_download_empty_string_witness :
    download wPorts (.ok (.str ("<p>z</p>"))) wFresh (some (.str (""))) = wFresh
    ∧ parse wPorts
        (download wPorts (.ok (.str ("<p>z</p>"))) wFresh (some (.str ("")))) =
        .error (.mk NOT_DOWNLOADED_MSG) :=
  ⟨(C10_download_empty_string wPorts (.ok (.str ("<p>z</p>")))
      (.error ("net down")) wFresh).1,
   (C10_download_empty_string wPorts (.ok (.str ("<p>z</p>")))
      (.error ("net down")) wFresh).2.2 rfl⟩

/-! ### Claim C1 -/

/-- C1 counterexample: with collaborators that build a document, select a
node and format it to the non-empty pair (sometext, somehtml), `parse` on
a successfully downloaded article returns the formatted text but the
fields `text` and `article_html` of the article are still empty afterwards:
the stores described by the claim do not happen (the corresponding
`set_text` / `set_article_html` calls are commented out in the source). -/
theorem C1_counterexample :
    (parse wPorts wSuccess).toOption.map
        (fun p => (p.1, p.2.text, p.2.article_html)) =
      some (some ("sometext"), ("", ""))
    ∧ ("sometext") ≠ (("") : String) := by
  constructor
  · rfl
  · decide

/-- C1 (amended): when a content node is selected, `parse` post-cleans it,
formats it and returns the text component, recording the hash and the
parsed flag — but it does not store the formatted text or node HTML into
the fields `text` / `article_html` of the article, which keep their prior
values. -/
theorem C1_parse_formats_without_storing {Doc Node : Type} (ports : Ports Doc Node)
    (a : Article) (doc : Doc) (top_node : Node)
    (hs : a.download_state = .SUCCESS)
    (hf : ports.fromstring a.html = some doc)
    (hb : ports.calculate_best_node (ports.clean doc) = some top_node) :
    parse ports a =
      .ok (some (ports.get_formatted (ports.post_cleanup top_node)).1,
           { a with link_hash := some (get_parse_candidate a).link_hash,
                    is_parsed := true })
    ∧ (∀ res b, parse ports a = .ok (res, b) →
        b.text = a.text ∧ b.article_html = a.article_html) := by
  have h1 := parse_document_with_node ports a doc top_node hs hf hb
  refine ⟨h1, ?_⟩
  intro res b hp
  rw [h1] at hp
  simp only [Except.ok.injEq, Prod.mk.injEq] at hp
  rw [← hp.2]
  exact ⟨rfl, rfl⟩

/-- Witness for C1 (amended): evaluated on the concrete fixtures. -/
theorem C1_parse_formats_without_storing_witness :
    parse wPorts wSuccess =
      .ok (some (wPorts.get_formatted (wPorts.post_cleanup ())).1,
           { wSuccess with link_hash := some (get_parse_candidate wSuccess).link_hash,
                           is_parsed := true }) :=
  (C1_parse_formats_without_storing wPorts wSuccess () () rfl rfl rfl).1

/-! ### Claim C7 -/

/-- C7: with the empty-string sentinel the constructor derives the scheme
(defaulting to http when none is detected) and composes
`scheme + :// + domain` as `source_url` — always succeeding, since the
composed origin is non-empty; an absent (`None`) `source_url` trips the
emptiness guard and raises the bad-url-format `ArticleException`, so no
instance is created; and a caller-supplied non-empty `source_url` is used
verbatim.  The URL helpers are arbitrary, so this holds for every
implementation of `newspaper.urls`. -/
theorem C7_init_source_resolution (cfg : Configuration)
    (gs : String → Option String) (gd : String → String)
    (pu : String → String → String) (url : String) :
    Article.init cfg gs gd pu url (some ("")) =
      .ok { config := cfg
            source_url := (gs url).getD ("http") ++ ("://") ++ gd url
            url := pu url ((gs url).getD ("http") ++ ("://") ++ gd url)
            text := ""
            html := ""
            article_html := ""
            is_parsed := false
            download_state := .NOT_STARTED
            download_exception_msg := none
            link_hash := none }
    ∧ (gs url = none →
        ∀ b, Article.init cfg gs gd pu url (some ("")) = .ok b →
          b.source_url = ("http") ++ ("://") ++ gd url)
    ∧ Article.init cfg gs gd pu url none = .error (.mk BAD_URL_MSG)
    ∧ (∀ su : String, su ≠ "" →
        Article.init cfg gs gd pu url (some su) =
          .ok { config := cfg
                source_url := su
                url := pu url su
                text := ""
                html := ""
                article_html := ""
                is_parsed := false
                download_state := .NOT_STARTED
                download_exception_msg := none
                link_hash := none }) := by
  have hne := scheme_sep_ne_empty ((gs url).getD ("http")) (gd url)
  have h1 : Article.init cfg gs gd pu url (some ("")) =
      .ok { config := cfg
            source_url := (gs url).getD ("http") ++ ("://") ++ gd url
            url := pu url ((gs url).getD ("http") ++ ("://") ++ gd url)
            text := ""
            html := ""
            article_html := ""
            is_parsed := false
            download_state := .NOT_STARTED
            download_exception_msg := none
            link_hash := none } := by
    simp [Article.init, hne]
  refine ⟨h1, ?_, ?_, ?_⟩
  · intro hgs b hb
    rw [h1] at hb
    simp only [Except.ok.injEq] at hb
    rw [← hb]
    simp [hgs]
  · simp [Article.init]
  · intro su hsu
    simp [Article.init, hsu]

/-- Witness for C7 at concrete helper implementations: scheme detection
fails so http is used, a `None` source raises the bad-url-format error,
and a pinned non-empty source is taken verbatim. -/
theorem C7_init_source_resolution_witness :
    Article.init { MAX_TEXT := 100 } (fun _ => none) (fun _ => ("example.com"))
        (fun u _ => u) ("example.com/a") (some ("")) =
      .ok { config := { MAX_TEXT := 100 }
            source_url := ((none : Option String)).getD ("http") ++ ("://")
              ++ ("example.com")
            url := ("example.com/a")
            text := ""
            html := ""
            article_html := ""
            is_parsed := false
            download_state := .NOT_STARTED
            download_exception_msg := none
            link_hash := none }
    ∧ Article.init { MAX_TEXT := 100 } (fun _ => none) (fun _ => ("example.com"))
        (fun u _ => u) ("example.com/a") none = .error (.mk BAD_URL_MSG)
    ∧ Article.init { MAX_TEXT := 100 } (fun _ => none) (fun _ => ("example.com"))
        (fun u _ => u) ("http://a.example/x") (some ("http://pin.example")) =
      .ok { config := { MAX_TEXT := 100 }
            source_url := ("http://pin.example")
            url := ("http://a.example/x")
            text := ""
            html := ""
            article_html := ""
            is_parsed := false
            download_state := .NOT_STARTED
            download_exception_msg := none
            link_hash := none } :=
  ⟨(C7_init_source_resolution { MAX_TEXT := 100 } (fun _ => none)
      (fun _ => ("example.com")) (fun u _ => u) ("example.com/a")).1,
   (C7_init_source_resolution { MAX_TEXT := 100 } (fun _ => none)
      (fun _ => ("example.com")) (fun u _ => u) ("example.com/a")).2.2.1,
   (C7_init_source_resolution { MAX_TEXT := 100 } (fun _ => none)
      (fun _ => ("example.com")) (fun u _ => u) ("http://a.example/x")).2.2.2
      ("http://pin.example") (by decide)⟩

/-! ### Claim C8 -/

/-- The article of the C8 counterexample: text already set and
`MAX_TEXT = 0`. -/
def c8Article : Article := { wFresh with config := { MAX_TEXT := 0 }, text := ("x") }

/-- C8 counterexample: with `MAX_TEXT = 0` and `text` already set,
`set_text` on a two-character input (longer than the cap) does not store
a string of exactly `MAX_TEXT` characters: truncation yields the empty
string, the truthiness guard rejects it, and the pre-existing
one-character text survives, so the stored length differs from the cap. -/
theorem C8_counterexample :
    c8Article.config.MAX_TEXT < ("ab").length
    ∧ (set_text c8Article ("ab")).text.length ≠ c8Article.config.MAX_TEXT := by
  constructor
  · decide
  · decide

/-- C8 (amended): `set_text` truncates to `config.MAX_TEXT` characters and
assigns only when the truncated result is non-empty; when the cap is
positive, an input longer than the cap stores exactly `MAX_TEXT`
characters; `set_text` with the empty string never clears existing text;
and when the truncated result is empty the call is a no-op. -/
theorem C8_set_text_truncates (a : Article) (t : String) :
    (0 < a.config.MAX_TEXT → a.config.MAX_TEXT < t.length →
        (set_text a t).text = pySlice t a.config.MAX_TEXT
        ∧ (set_text a t).text.length = a.config.MAX_TEXT)
    ∧ set_text a ("") = a
    ∧ (∀ s : String, pySlice s a.config.MAX_TEXT ≠ "" →
        (set_text a s).text = pySlice s a.config.MAX_TEXT)
    ∧ (∀ s : String, pySlice s a.config.MAX_TEXT = "" → set_text a s = a) := by
  have hassign : ∀ s : String, pySlice s a.config.MAX_TEXT ≠ "" →
      set_text a s = { a with text := pySlice s a.config.MAX_TEXT } := by
    intro s hs
    simp [set_text, pyTruthy, hs]
  have hskip : ∀ s : String, pySlice s a.config.MAX_TEXT = "" → set_text a s = a := by
    intro s hs
    simp [set_text, pyTruthy, hs]
  refine ⟨?_, ?_, ?_, hskip⟩
  · intro h0 hlen
    have hne : pySlice t a.config.MAX_TEXT ≠ "" := by
      intro he
      have h2 := congrArg String.length he
      rw [pySlice_length] at h2
      have h3 : (("") : String).length = 0 := rfl
      rw [h3] at h2
      omega
    rw [hassign t hne]
    refine ⟨rfl, ?_⟩
    show (pySlice t a.config.MAX_TEXT).length = a.config.MAX_TEXT
    rw [pySlice_length]
    omega
  · apply hskip
    apply String.ext
    show ((("") : String).data.take a.config.MAX_TEXT) = (("") : String).data
    rw [show ((("") : String).data) = [] from rfl]
    simp
  · intro s hs
    rw [hassign s hs]

/-- Witness for C8 (amended): with cap 2, a four-character input stores
its two-character truncation and the empty input is a no-op. -/
theorem C8_set_text_truncates_witness :
    ((set_text { wFresh with config := { MAX_TEXT := 2 } } ("abcd")).text =
        pySlice ("abcd") 2
      ∧ (set_text { wFresh with config := { MAX_TEXT := 2 } } ("abcd")).text.length = 2)
    ∧ set_text { wFresh with config := { MAX_TEXT := 2 } } ("") =
        { wFresh with config := { MAX_TEXT := 2 } } :=
  ⟨(C8_set_text_truncates { wFresh with config := { MAX_TEXT := 2 } } ("abcd")).1
      (by decide) (by decide),
   (C8_set_text_truncates { wFresh with config := { MAX_TEXT := 2 } } ("abcd")).2.1⟩

end Newspaper
